import Mathlib

/-!
Shallow embedding of `src/main.py` (MAL Progress Box): a batch job that turns a
list of MyAnimeList entries into at most five formatted progress lines and
publishes them to a gist, guarded by a one-hour rate limit.

Strings model Python `str` (sequences of Unicode code points); numeric division
is modelled over `ℚ`, with the Python builtin `round` embedded as round-half-to-even.
-/

/-- One normalized MyAnimeList entry: the `MALEntry` TypedDict of main.py. -/
structure MALEntry where
  status : ℕ
  anime_title : String
  anime_num_episodes : ℕ
  num_watched_episodes : ℕ
  manga_num_chapters : ℕ
  manga_num_volumes : ℕ
  num_read_chapters : ℕ
  num_read_volumes : ℕ
deriving Repr, DecidableEq

/-- The Python builtin `round` to an integer: round half to even, on exact rationals. -/
def pyRound (q : ℚ) : ℤ :=
  if q - ⌊q⌋ < 1/2 then ⌊q⌋
  else if 1/2 < q - ⌊q⌋ then ⌊q⌋ + 1
  else if 2 ∣ ⌊q⌋ then ⌊q⌋ else ⌊q⌋ + 1

/-- `RATE_LIMIT_HOURS` of main.py. -/
def RATE_LIMIT_HOURS : ℚ := 1

/-- `check_rate_limit` of main.py. The rate-limit file is `none` when absent,
`some none` when present but unreadable/unparsable (the `ValueError`/`OSError`
branch), and `some (some t)` when it parses to the timestamp `t` (seconds). -/
def check_rate_limit (rate_file : Option (Option ℚ)) (now : ℚ) : Bool :=
  match rate_file with
  | none => true
  | some none => true
  | some (some last_update) =>
    if (now - last_update) / 3600 < RATE_LIMIT_HOURS then false else true

/-- The per-entry classification loop of `main` (main.py lines 318-375): skips
entries whose status is not 1, and builds `(progress_data, undefined_progress_data)`
in encounter order. Returns `none` when the loop reaches `sys.exit(1)` because
`CONTENT_TYPE` is neither "anime" nor "manga" at some in-progress entry. -/
def classify_entries (content_type : String) : List MALEntry →
    Option (List (ℤ × String) × List (String × String × ℕ))
  | [] => some ([], [])
  | e :: rest =>
    if e.status ≠ 1 then classify_entries content_type rest
    else if content_type = "anime" then
      (classify_entries content_type rest).map fun pd_ud =>
        if e.anime_num_episodes ≠ 0 then
          ((pyRound ((e.num_watched_episodes : ℚ) / (e.anime_num_episodes : ℚ) * 100),
              e.anime_title) :: pd_ud.1,
            pd_ud.2)
        else
          (pd_ud.1,
            ("Ep. " ++ toString e.num_watched_episodes, e.anime_title,
              e.num_watched_episodes) :: pd_ud.2)
    else if content_type = "manga" then
      (classify_entries content_type rest).map fun pd_ud =>
        if e.manga_num_chapters ≠ 0 ∨ e.manga_num_volumes ≠ 0 then
          let chapterRatio : ℚ :=
            if e.manga_num_chapters ≠ 0 then
              (e.num_read_chapters : ℚ) / (e.manga_num_chapters : ℚ)
            else 0
          let volumeRatio : ℚ :=
            if e.manga_num_volumes ≠ 0 then
              (e.num_read_volumes : ℚ) / (e.manga_num_volumes : ℚ)
            else 0
          ((pyRound (max chapterRatio volumeRatio * 100), e.anime_title) :: pd_ud.1, pd_ud.2)
        else if e.num_read_chapters > e.num_read_volumes then
          (pd_ud.1,
            ("Ch. " ++ toString e.num_read_chapters, e.anime_title,
              e.num_read_chapters) :: pd_ud.2)
        else
          (pd_ud.1,
            ("Vol. " ++ toString e.num_read_volumes, e.anime_title,
              e.num_read_volumes) :: pd_ud.2)
    else none

/-- Python string comparison `s < t`: lexicographic on code points. -/
def pyStrLtb : List Char → List Char → Bool
  | _, [] => false
  | [], _ :: _ => true
  | a :: as, b :: bs => if a < b then true else if b < a then false else pyStrLtb as bs

theorem pyStrLtb_nil_right (x : List Char) : pyStrLtb x [] = false := by
  cases x <;> rfl

theorem pyStrLtb_asymm : ∀ x y : List Char, pyStrLtb x y = true → pyStrLtb y x = false := by
  intro x
  induction x with
  | nil =>
    intro y h
    exact pyStrLtb_nil_right y
  | cons a as ih =>
    intro y h
    cases y with
    | nil => rw [pyStrLtb_nil_right] at h; exact absurd h (by simp)
    | cons b bs =>
      simp only [pyStrLtb] at h ⊢
      rcases lt_trichotomy a b with hab | hab | hab
      · rw [if_neg (asymm hab), if_pos hab]
      · subst hab
        rw [if_neg (lt_irrefl a), if_neg (lt_irrefl a)] at h ⊢
        exact ih bs h
      · rw [if_neg (asymm hab), if_pos hab] at h
        exact absurd h (by simp)

theorem pyStrLtb_le_trans :
    ∀ x y z : List Char, pyStrLtb y x = false → pyStrLtb z y = false →
      pyStrLtb z x = false := by
  intro x
  induction x with
  | nil =>
    intro y z _ _
    exact pyStrLtb_nil_right z
  | cons a as ih =>
    intro y z h1 h2
    cases y with
    | nil => simp [pyStrLtb] at h1
    | cons b bs =>
      cases z with
      | nil => simp [pyStrLtb] at h2
      | cons c cs =>
        simp only [pyStrLtb] at h1 h2 ⊢
        have hba : ¬ b < a := by
          intro hc; rw [if_pos hc] at h1; exact absurd h1 (by simp)
        have hcb : ¬ c < b := by
          intro hc; rw [if_pos hc] at h2; exact absurd h2 (by simp)
        have hab : a ≤ b := not_lt.mp hba
        have hbc : b ≤ c := not_lt.mp hcb
        have hca : ¬ c < a := not_lt.mpr (hab.trans hbc)
        rw [if_neg hca]
        by_cases hac : a < c
        · rw [if_pos hac]
        · have hac' : a = c := le_antisymm (hab.trans hbc) (not_lt.mp hac)
          have hab' : a = b := le_antisymm hab (hac' ▸ hbc)
          subst hac'
          subst hab'
          rw [if_neg hba, if_neg hba] at h1 h2
          rw [if_neg hba]
          exact ih bs cs h1 h2

/-- The comparison under `progress_data.sort(reverse=True)` (main.py line 378):
Python sorts the `(percentage, title)` tuples in place, in descending
lexicographic tuple order, stably. `rankedGE a b` says `a` may come no later
than `b`: the tuple of `b` is lexicographically at most the tuple of `a`
(`pyStrLtb a.2.data b.2.data = false` states `b.2 ≤ a.2` on titles). -/
def rankedGE (a b : ℤ × String) : Prop :=
  b.1 < a.1 ∨ (b.1 = a.1 ∧ pyStrLtb a.2.data b.2.data = false)

instance : DecidableRel rankedGE := fun a b => by
  unfold rankedGE; infer_instance

instance : IsTotal (ℤ × String) rankedGE where
  total a b := by
    rcases lt_trichotomy a.1 b.1 with h | h | h
    · exact Or.inr (Or.inl h)
    · by_cases hs : pyStrLtb a.2.data b.2.data = false
      · exact Or.inl (Or.inr ⟨h.symm, hs⟩)
      · exact Or.inr (Or.inr ⟨h, pyStrLtb_asymm _ _ (by simpa using hs)⟩)
    · exact Or.inl (Or.inl h)

instance : IsTrans (ℤ × String) rankedGE where
  trans a b c hab hbc := by
    rcases hab with h1 | ⟨h1, h1s⟩ <;> rcases hbc with h2 | ⟨h2, h2s⟩
    · exact Or.inl (h2.trans h1)
    · exact Or.inl (h2 ▸ h1)
    · exact Or.inl (h1 ▸ h2)
    · exact Or.inr ⟨h2.trans h1, pyStrLtb_le_trans c.2.data b.2.data a.2.data h2s h1s⟩

/-- The comparison under `undefined_progress_data.sort(key=lambda x: x[2], reverse=True)`
(main.py line 379): descending by the raw count, stable. -/
def unrankedGE (a b : String × String × ℕ) : Prop :=
  b.2.2 ≤ a.2.2

instance : DecidableRel unrankedGE := fun a b => by
  unfold unrankedGE; infer_instance

instance : IsTotal (String × String × ℕ) unrankedGE where
  total a b := le_total b.2.2 a.2.2

instance : IsTrans (String × String × ℕ) unrankedGE where
  trans _ _ _ hab hbc := le_trans hbc hab

/-- `progress_data.sort(reverse=True)` (main.py line 378), as a stable sort. -/
def sort_progress_data (pd : List (ℤ × String)) : List (ℤ × String) :=
  List.insertionSort rankedGE pd

/-- `undefined_progress_data.sort(key=lambda x: x[2], reverse=True)` (main.py line 379),
as a stable sort. -/
def sort_undefined_data (ud : List (String × String × ℕ)) : List (String × String × ℕ) :=
  List.insertionSort unrankedGE ud

/-- `combined_data` (main.py lines 382-385): the sorted ranked tuples, then the
sorted unranked tuples projected to `(label, title)`. The first component is
`Sum.inl percentage` for ranked entries and `Sum.inr label` for unranked ones,
mirroring the Python `int | str` union. -/
def combined_data (pd : List (ℤ × String)) (ud : List (String × String × ℕ)) :
    List ((ℤ ⊕ String) × String) :=
  (sort_progress_data pd).map (fun x => (Sum.inl x.1, x.2)) ++
    (sort_undefined_data ud).map (fun x => (Sum.inr x.1, x.2.1))

/-- `displayable_data = combined_data[:5]` (main.py line 386). -/
def displayable_data (pd : List (ℤ × String)) (ud : List (String × String × ℕ)) :
    List ((ℤ ⊕ String) × String) :=
  (combined_data pd ud).take 5

/-- The display label of a progress value: `str(p) + "%"` for a percentage,
the raw string otherwise (main.py line 394). -/
def label_str : ℤ ⊕ String → String
  | Sum.inl p => toString p ++ "%"
  | Sum.inr s => s

/-- `longest_progress_length` (main.py lines 393-396): the maximum label length
over the displayable records (`max` is only evaluated on a nonempty list). -/
def longest_progress_length (dd : List ((ℤ ⊕ String) × String)) : ℕ :=
  (dd.map fun x => (label_str x.1).length).foldl max 0

/-- Python `str.rjust`: left-pad with spaces to the requested width. -/
def rjust (s : String) (n : ℕ) : String :=
  String.mk (List.replicate (n - s.length) ' ') ++ s

/-- Python slicing `s[:n]`: the first `n` characters. -/
def str_take (s : String) (n : ℕ) : String :=
  String.mk (s.data.take n)

/-- The emoji selection of `format_progress_line` (main.py lines 269-284):
a fixed marker for string progress, else one of five markers by threshold
bands on the percentage. -/
def progress_emoji : ℤ ⊕ String → String
  | Sum.inr _ => "🍳 "
  | Sum.inl p =>
    if p ≥ 80 then "🍗 "
    else if p ≥ 60 then "🍔 "
    else if p ≥ 40 then "🍥 "
    else if p ≥ 20 then "🍣 "
    else "🥚 "

/-- The unrestricted line of `format_progress_line` (main.py line 287):
`emoji + progress_str.rjust(longest_length) + ": " + title`. -/
def raw_progress_line (progress : ℤ ⊕ String) (title : String) (longest_length : ℕ) : String :=
  progress_emoji progress ++ rjust (label_str progress) longest_length ++ ": " ++ title

/-- `format_progress_line` (main.py lines 258-288). -/
def format_progress_line (progress : ℤ ⊕ String) (title : String) (longest_length : ℕ) :
    String :=
  let line := raw_progress_line progress title longest_length
  if line.length > 54 then str_take line 50 ++ "..." else line

/-- `gist_lines` (main.py lines 399-402). -/
def gist_lines (pd : List (ℤ × String)) (ud : List (String × String × ℕ)) : List String :=
  (displayable_data pd ud).map fun x =>
    format_progress_line x.1 x.2 (longest_progress_length (displayable_data pd ud))

/-- The Python call replacing each dash of `CONTENT_STATUS` by a space
(`replace` with a single-character pattern). -/
def str_replace_dash (s : String) : String :=
  String.mk (s.data.map fun c => if c = '-' then ' ' else c)

/-- The `content_status_normalized` computation of `update_gist` (main.py lines 88-99):
`none` models the configuration-error early `return`. When the status is
"current" but the content type is neither "anime" nor "manga", the variable
keeps its initial value `""` and the update proceeds, exactly as in the code. -/
def content_status_normalized (content_type content_status : String) : Option String :=
  if content_status = "current" then
    if content_type = "anime" then some "I\x27m currently watching"
    else if content_type = "manga" then some "I\x27m currently reading"
    else some ""
  else if content_status = "completed" ∨ content_status = "on-hold" ∨
      content_status = "dropped" then
    some ("I have " ++ str_replace_dash content_status)
  else none

/-- The observable outcome of one run of `main`. -/
inductive RunOutcome where
  | rateLimited
  | noAuth
  | badContentType
  | noItems
  | badStatusConfig
  | publishFailed
  | published (message : String)
deriving Repr, DecidableEq

/-- The process exit status of each outcome (`sys.exit` calls in main.py;
a normal return of `main` exits 0). -/
def exit_code : RunOutcome → ℕ
  | .rateLimited => 0
  | .noAuth => 1
  | .badContentType => 1
  | .noItems => 0
  | .badStatusConfig => 0
  | .publishFailed => 1
  | .published _ => 0

/-- The result of a run: its outcome, the final rate-limit file state, and how
many times the rate-limit timestamp was written. -/
structure RunResult where
  outcome : RunOutcome
  rate_file : Option (Option ℚ)
  writes : ℕ
deriving Repr, DecidableEq

/-- `update_gist` (main.py lines 80-115): an invalid `CONTENT_STATUS` logs and
returns without publishing; otherwise the PATCH is sent, and on HTTP success
(`publish_ok`) the rate-limit timestamp is written once, while on HTTP failure
the process exits 1 with the timestamp untouched. -/
def update_gist (content_type content_status : String) (publish_ok : Bool)
    (rate_file : Option (Option ℚ)) (now : ℚ) (message : String) : RunResult :=
  match content_status_normalized content_type content_status with
  | none => ⟨.badStatusConfig, rate_file, 0⟩
  | some _ =>
    if publish_ok then ⟨.published message, some (some now), 1⟩
    else ⟨.publishFailed, rate_file, 0⟩

/-- `main` (main.py lines 291-404). `has_auth` models the presence of
`MAL_CLIENT_ID` or `MAL_ACCESS_TOKEN`; `entries` is what the fetch returned;
`publish_ok` models the HTTP status of the gist PATCH. -/
def run_main (content_type content_status : String) (has_auth : Bool)
    (rate_file : Option (Option ℚ)) (now : ℚ) (entries : List MALEntry)
    (publish_ok : Bool) : RunResult :=
  if check_rate_limit rate_file now = false then ⟨.rateLimited, rate_file, 0⟩
  else if has_auth = false then ⟨.noAuth, rate_file, 0⟩
  else
    match classify_entries content_type entries with
    | none => ⟨.badContentType, rate_file, 0⟩
    | some pd_ud =>
      if (displayable_data pd_ud.1 pd_ud.2).isEmpty then ⟨.noItems, rate_file, 0⟩
      else
        update_gist content_type content_status publish_ok rate_file now
          (String.intercalate "\n" (gist_lines pd_ud.1 pd_ud.2))

/-! ### Helper lemmas -/

theorem floor_le_pyRound (q : ℚ) : ⌊q⌋ ≤ pyRound q := by
  unfold pyRound
  split_ifs <;> omega

theorem pyRound_le_ceil (q : ℚ) : pyRound q ≤ ⌈q⌉ := by
  unfold pyRound
  split_ifs with h1 h2 h3
  · exact Int.floor_le_ceil q
  · have hq : (⌊q⌋ : ℚ) < q := by linarith
    have := Int.lt_ceil.mpr hq
    omega
  · exact Int.floor_le_ceil q
  · have hfr : (1 : ℚ) / 2 ≤ q - ⌊q⌋ := le_of_not_lt h1
    have hq : (⌊q⌋ : ℚ) < q := by linarith
    have := Int.lt_ceil.mpr hq
    omega

/-! ### Claim theorems -/

/-- C1: for every in-progress anime entry with a nonzero total episode count and
watched at most total, the classification loop emits exactly one Ranked record,
whose percentage is `round(watched / total * 100)` and lies in `[0, 100]`. -/
theorem anime_ranked_percentage_correct (e : MALEntry)
    (hst : e.status = 1) (hne : e.anime_num_episodes ≠ 0)
    (hle : e.num_watched_episodes ≤ e.anime_num_episodes) :
    classify_entries "anime" [e] =
      some ([(pyRound ((e.num_watched_episodes : ℚ) / (e.anime_num_episodes : ℚ) * 100),
        e.anime_title)], []) ∧
    0 ≤ pyRound ((e.num_watched_episodes : ℚ) / (e.anime_num_episodes : ℚ) * 100) ∧
    pyRound ((e.num_watched_episodes : ℚ) / (e.anime_num_episodes : ℚ) * 100) ≤ 100 := by
  have ht : (0 : ℚ) < (e.anime_num_episodes : ℚ) := by
    exact_mod_cast Nat.pos_of_ne_zero hne
  have hq0 : 0 ≤ (e.num_watched_episodes : ℚ) / (e.anime_num_episodes : ℚ) * 100 := by
    positivity
  have hq100 : (e.num_watched_episodes : ℚ) / (e.anime_num_episodes : ℚ) * 100 ≤ 100 := by
    have h1 : (e.num_watched_episodes : ℚ) / (e.anime_num_episodes : ℚ) ≤ 1 :=
      (div_le_one ht).mpr (by exact_mod_cast hle)
    nlinarith
  refine ⟨?_, ?_, ?_⟩
  · simp [classify_entries, hst, hne]
  · have h1 := floor_le_pyRound ((e.num_watched_episodes : ℚ) / (e.anime_num_episodes : ℚ) * 100)
    have h2 : (0 : ℤ) ≤ ⌊(e.num_watched_episodes : ℚ) / (e.anime_num_episodes : ℚ) * 100⌋ :=
      Int.le_floor.mpr (by exact_mod_cast hq0)
    omega
  · have h1 := pyRound_le_ceil ((e.num_watched_episodes : ℚ) / (e.anime_num_episodes : ℚ) * 100)
    have h2 : ⌈(e.num_watched_episodes : ℚ) / (e.anime_num_episodes : ℚ) * 100⌉ ≤ (100 : ℤ) :=
      Int.ceil_le.mpr (by exact_mod_cast hq100)
    omega

/-- Witness for C1 at the spec example entry (24 episodes, 12 watched). -/
theorem anime_ranked_percentage_correct_witness :
    classify_entries "anime" [⟨1, "Example Show", 24, 12, 0, 0, 0, 0⟩] =
      some ([(pyRound (((12 : ℕ) : ℚ) / ((24 : ℕ) : ℚ) * 100), "Example Show")], []) ∧
    0 ≤ pyRound (((12 : ℕ) : ℚ) / ((24 : ℕ) : ℚ) * 100) ∧
    pyRound (((12 : ℕ) : ℚ) / ((24 : ℕ) : ℚ) * 100) ≤ 100 :=
  anime_ranked_percentage_correct ⟨1, "Example Show", 24, 12, 0, 0, 0, 0⟩ rfl
    (by decide) (by decide)

/-- C7: the rate-limit check is fail-open (absent or unreadable file allows the
run), and with a parsed timestamp `t` it refuses exactly when less than 3600
seconds have elapsed; in particular it refuses at `t + 30min` and allows at
`t + 61min`. -/
theorem check_rate_limit_spec :
    (∀ now : ℚ, check_rate_limit none now = true) ∧
    (∀ now : ℚ, check_rate_limit (some none) now = true) ∧
    (∀ t now : ℚ, (check_rate_limit (some (some t)) now = false ↔ now - t < 3600)) ∧
    (∀ t : ℚ, check_rate_limit (some (some t)) (t + 1800) = false) ∧
    (∀ t : ℚ, check_rate_limit (some (some t)) (t + 3660) = true) := by
  refine ⟨fun _ => rfl, fun _ => rfl, ?_, ?_, ?_⟩
  · intro t now
    simp only [check_rate_limit, RATE_LIMIT_HOURS]
    split_ifs with h
    · simp only [eq_self_iff_true, true_iff]
      exact (div_lt_one (by norm_num : (0 : ℚ) < 3600)).mp h
    · simp only [Bool.true_eq_false, false_iff]
      intro hc
      exact h ((div_lt_one (by norm_num : (0 : ℚ) < 3600)).mpr hc)
  · intro t
    have h : (t + 1800 - t) / 3600 < 1 := by
      have he : t + 1800 - t = 1800 := by ring
      rw [he]; norm_num
    simp only [check_rate_limit, RATE_LIMIT_HOURS]
    rw [if_pos h]
  · intro t
    have h : ¬ ((t + 3660 - t) / 3600 < 1) := by
      have he : t + 3660 - t = 3660 := by ring
      rw [he]; norm_num
    simp only [check_rate_limit, RATE_LIMIT_HOURS]
    rw [if_neg h]

/-- C5: a formatted line longer than 54 characters is truncated to its first 50
characters plus an ellipsis, for a total of 53; shorter lines pass unchanged. -/
theorem line_truncation_law (progress : ℤ ⊕ String) (title : String) (n : ℕ) :
    ((raw_progress_line progress title n).length > 54 →
      format_progress_line progress title n =
        str_take (raw_progress_line progress title n) 50 ++ "..." ∧
      (format_progress_line progress title n).length = 53) ∧
    ((raw_progress_line progress title n).length ≤ 54 →
      format_progress_line progress title n = raw_progress_line progress title n) := by
  constructor
  · intro h
    have hfmt : format_progress_line progress title n =
        str_take (raw_progress_line progress title n) 50 ++ "..." := by
      unfold format_progress_line
      rw [if_pos h]
    refine ⟨hfmt, ?_⟩
    rw [hfmt]
    have hdata : (raw_progress_line progress title n).data.length > 54 := h
    rw [String.length_append]
    have h50 : (str_take (raw_progress_line progress title n) 50).length = 50 := by
      show ((raw_progress_line progress title n).data.take 50).length = 50
      rw [List.length_take]
      omega
    rw [h50]
    rfl
  · intro h
    unfold format_progress_line
    rw [if_neg (by omega)]

/-- Witness for C5 at a concrete over-long line (60-character title). -/
theorem line_truncation_law_witness :
    format_progress_line (Sum.inr "Ep. 3")
        "xxxxxxxxxxxxxxxxxxxxxxxxxxxxxxxxxxxxxxxxxxxxxxxxxxxxxxxxxxxx" 5 =
      str_take (raw_progress_line (Sum.inr "Ep. 3")
        "xxxxxxxxxxxxxxxxxxxxxxxxxxxxxxxxxxxxxxxxxxxxxxxxxxxxxxxxxxxx" 5) 50 ++ "..." ∧
    (format_progress_line (Sum.inr "Ep. 3")
        "xxxxxxxxxxxxxxxxxxxxxxxxxxxxxxxxxxxxxxxxxxxxxxxxxxxxxxxxxxxx" 5).length = 53 :=
  (line_truncation_law (Sum.inr "Ep. 3")
    "xxxxxxxxxxxxxxxxxxxxxxxxxxxxxxxxxxxxxxxxxxxxxxxxxxxxxxxxxxxx" 5).1 (by decide)

/-- C10: an anime entry with more watched episodes than total (3 of 2) yields a
Ranked percentage of 150, above 100 (no clamping), and the formatter renders it
with the highest-band marker, the same marker as a 100 percent entry. -/
theorem overflow_percentage_not_clamped :
    classify_entries "anime" [⟨1, "T", 2, 3, 0, 0, 0, 0⟩] = some ([(150, "T")], []) ∧
    (100 : ℤ) < 150 ∧
    format_progress_line (Sum.inl 150) "T" 4 = "🍗 150%: T" ∧
    progress_emoji (Sum.inl 150) = progress_emoji (Sum.inl 100) := by
  have hq : (3 : ℚ) / (2 : ℚ) * 100 = 150 := by norm_num
  have hf : ⌊(150 : ℚ)⌋ = 150 := by
    rw [show (150 : ℚ) = ((150 : ℤ) : ℚ) by norm_num, Int.floor_intCast]
  have h150 : pyRound ((3 : ℚ) / (2 : ℚ) * 100) = 150 := by
    rw [hq]
    unfold pyRound
    rw [hf]
    norm_num
  refine ⟨?_, by norm_num, by decide, by decide⟩
  simp [classify_entries]
  exact h150

/-- C3: the displayed sequence is the first five records of the combined list,
and decomposes as Ranked records (percentages) followed by Unranked records
(labels), so every Ranked record precedes every Unranked one. -/
theorem ranked_precede_unranked (pd : List (ℤ × String)) (ud : List (String × String × ℕ)) :
    (displayable_data pd ud).length ≤ 5 ∧
    displayable_data pd ud <+: combined_data pd ud ∧
    ∃ a b, displayable_data pd ud = a ++ b ∧
      (∀ x ∈ a, (Prod.fst x).isLeft = true) ∧
      (∀ x ∈ b, (Prod.fst x).isRight = true) := by
  refine ⟨?_, ?_, ?_⟩
  · simp only [displayable_data, List.length_take]
    omega
  · exact List.take_prefix _ _
  · refine ⟨((sort_progress_data pd).map
        (fun x => ((Sum.inl x.1 : ℤ ⊕ String), x.2))).take 5,
      ((sort_undefined_data ud).map (fun x => ((Sum.inr x.1 : ℤ ⊕ String), x.2.1))).take
        (5 - ((sort_progress_data pd).map
          (fun x => ((Sum.inl x.1 : ℤ ⊕ String), x.2))).length),
      ?_, ?_, ?_⟩
    · unfold displayable_data combined_data
      exact List.take_append_eq_append_take
    · intro x hx
      obtain ⟨y, _, rfl⟩ := List.mem_map.mp (List.take_subset _ _ hx)
      rfl
    · intro x hx
      obtain ⟨y, _, rfl⟩ := List.mem_map.mp (List.take_subset _ _ hx)
      rfl

/-! ### Classification loop helpers -/

theorem classify_entries_all_skipped (ct : String) :
    ∀ entries : List MALEntry, (∀ e ∈ entries, e.status ≠ 1) →
      classify_entries ct entries = some ([], []) := by
  intro entries
  induction entries with
  | nil => intro _; rfl
  | cons e rest ih =>
    intro hall
    have hs : e.status ≠ 1 := hall e (List.mem_cons_self e rest)
    simp only [classify_entries, if_pos hs]
    exact ih fun x hx => hall x (List.mem_cons_of_mem e hx)

theorem classify_entries_valid_isSome (ct : String) (hct : ct = "anime" ∨ ct = "manga") :
    ∀ entries : List MALEntry, (classify_entries ct entries).isSome = true := by
  intro entries
  induction entries with
  | nil => rfl
  | cons e rest ih =>
    by_cases hs : e.status ≠ 1
    · simp only [classify_entries, if_pos hs]
      exact ih
    · obtain ⟨p, hp⟩ := Option.isSome_iff_exists.mp ih
      rcases hct with hct | hct <;> subst hct
      · simp only [classify_entries, if_neg hs, if_pos rfl, hp, Option.map_some]
        rfl
      · have hne : ("manga" : String) ≠ "anime" := by decide
        simp only [classify_entries, if_neg hs, if_neg hne, if_pos rfl, hp, Option.map_some]
        rfl

theorem classify_entries_invalid_none (ct : String) (h1 : ct ≠ "anime") (h2 : ct ≠ "manga") :
    ∀ entries : List MALEntry, (∃ e ∈ entries, e.status = 1) →
      classify_entries ct entries = none := by
  intro entries
  induction entries with
  | nil => rintro ⟨e, he, _⟩; cases he
  | cons e rest ih =>
    rintro ⟨x, hx, hxs⟩
    by_cases hs : e.status ≠ 1
    · rcases List.mem_cons.mp hx with rfl | hx'
      · exact absurd hxs hs
      · simp only [classify_entries, if_pos hs]
        exact ih ⟨x, hx', hxs⟩
    · simp only [classify_entries, if_neg hs, if_neg h1, if_neg h2]

/-- C2 is false as stated: two Ranked records with equal percentage 50 arrive
in input order ("A" first, "B" second) but leave the sort in order "B", "A":
the Python tuple sort breaks percentage ties by title, descending, not by
original input order. -/
theorem ranked_sort_not_input_stable :
    sort_progress_data [(50, "A"), (50, "B")] = [(50, "B"), (50, "A")] := by decide

/-- C2 amended: the Ranked sort is descending by percentage, with equal-percentage
ties broken by descending title comparison (input order survives only between
fully equal tuples); the Unranked sort is descending by raw count and keeps the
input order of any two records with equal counts. Both sorts permute their input. -/
theorem sorts_descending_and_unranked_stable :
    (∀ pd : List (ℤ × String),
      List.Pairwise rankedGE (sort_progress_data pd) ∧
      List.Perm (sort_progress_data pd) pd) ∧
    (∀ ud : List (String × String × ℕ),
      List.Pairwise unrankedGE (sort_undefined_data ud) ∧
      List.Perm (sort_undefined_data ud) ud) ∧
    (∀ (a b : String × String × ℕ) (ud : List (String × String × ℕ)),
      a.2.2 = b.2.2 → List.Sublist [a, b] ud →
      List.Sublist [a, b] (sort_undefined_data ud)) := by
  refine ⟨fun pd => ⟨?_, ?_⟩, fun ud => ⟨?_, ?_⟩, ?_⟩
  · exact List.sorted_insertionSort rankedGE pd
  · exact List.perm_insertionSort rankedGE pd
  · exact List.sorted_insertionSort unrankedGE ud
  · exact List.perm_insertionSort unrankedGE ud
  · intro a b ud heq hsub
    exact List.pair_sublist_insertionSort (le_of_eq heq.symm) hsub

/-- Witness for the stability clause of amended C2: two equal-count records keep
their input order through the Unranked sort. -/
theorem sorts_descending_and_unranked_stable_witness :
    List.Sublist [("Ch. 3", "X", 3), ("Vol. 3", "Y", 3)]
      (sort_undefined_data [("Ch. 3", "X", 3), ("Vol. 3", "Y", 3)]) :=
  sorts_descending_and_unranked_stable.2.2 ("Ch. 3", "X", 3) ("Vol. 3", "Y", 3)
    [("Ch. 3", "X", 3), ("Vol. 3", "Y", 3)] rfl (List.Sublist.refl _)

/-- C4 is false as stated: a manga entry with both totals zero and equal read
counts (3 chapters read, 3 volumes read) takes the volumes branch and produces
the label "Vol. 3", not the chapters label "Ch. 3". -/
theorem manga_tie_takes_volumes_branch :
    classify_entries "manga" [⟨1, "T", 0, 0, 0, 0, 3, 3⟩] =
      some ([], [("Vol. 3", "T", 3)]) ∧
    classify_entries "manga" [⟨1, "T", 0, 0, 0, 0, 3, 3⟩] ≠
      some ([], [("Ch. 3", "T", 3)]) :=
  ⟨by decide, by decide⟩

/-- C4 amended: an in-progress manga entry with both totals zero and equal read
counts yields an Unranked record from the volumes branch, with label
"Vol. {read_volumes}" and sort key `read_volumes` (equal to `read_chapters`). -/
theorem manga_tie_prefers_volumes (e : MALEntry) (hst : e.status = 1)
    (hch : e.manga_num_chapters = 0) (hv : e.manga_num_volumes = 0)
    (heq : e.num_read_chapters = e.num_read_volumes) :
    classify_entries "manga" [e] =
      some ([], [("Vol. " ++ toString e.num_read_volumes, e.anime_title,
        e.num_read_volumes)]) := by
  simp [classify_entries, hst, hch, hv, heq]

/-- Witness for amended C4 at the tied entry (3 chapters read, 3 volumes read). -/
theorem manga_tie_prefers_volumes_witness :
    classify_entries "manga" [⟨1, "T", 0, 0, 0, 0, 3, 3⟩] =
      some ([], [("Vol. " ++ toString (3 : ℕ), "T", 3)]) :=
  manga_tie_prefers_volumes ⟨1, "T", 0, 0, 0, 0, 3, 3⟩ rfl rfl rfl rfl

/-- C6: the rendered output never exceeds five lines, and a run whose fetched
list contains no in-progress entry exits with status 0 without reaching the
publisher: nothing is published, the timestamp is not written, and the
rate-limit file is unchanged. -/
theorem at_most_five_lines_and_empty_run_exits_zero :
    (∀ pd ud, (gist_lines pd ud).length ≤ 5) ∧
    (∀ (ct cs : String) (rf : Option (Option ℚ)) (now : ℚ) (entries : List MALEntry)
        (pok : Bool), (∀ e ∈ entries, e.status ≠ 1) →
      exit_code (run_main ct cs true rf now entries pok).outcome = 0 ∧
      (∀ m, (run_main ct cs true rf now entries pok).outcome ≠ .published m) ∧
      (run_main ct cs true rf now entries pok).writes = 0 ∧
      (run_main ct cs true rf now entries pok).rate_file = rf) := by
  constructor
  · intro pd ud
    simp only [gist_lines, displayable_data, List.length_map, List.length_take]
    omega
  · intro ct cs rf now entries pok hall
    by_cases hrl : check_rate_limit rf now = false
    · have hres : run_main ct cs true rf now entries pok = ⟨.rateLimited, rf, 0⟩ := by
        simp [run_main, hrl]
      rw [hres]
      exact ⟨rfl, fun m => by simp, rfl, rfl⟩
    · have hrl' : check_rate_limit rf now = true := by
        cases hcl : check_rate_limit rf now
        · exact absurd hcl hrl
        · rfl
      have hclass := classify_entries_all_skipped ct entries hall
      have hres : run_main ct cs true rf now entries pok = ⟨.noItems, rf, 0⟩ := by
        simp [run_main, hrl', hclass, displayable_data, combined_data,
          sort_progress_data, sort_undefined_data, List.insertionSort]
      rw [hres]
      exact ⟨rfl, fun m => by simp, rfl, rfl⟩

/-- Witness for C6 at a run whose only entry is completed (status 2). -/
theorem at_most_five_lines_and_empty_run_exits_zero_witness :
    exit_code (run_main "anime" "current" true none 0
      [⟨2, "T", 12, 5, 0, 0, 0, 0⟩] true).outcome = 0 ∧
    (∀ m, (run_main "anime" "current" true none 0
      [⟨2, "T", 12, 5, 0, 0, 0, 0⟩] true).outcome ≠ .published m) ∧
    (run_main "anime" "current" true none 0 [⟨2, "T", 12, 5, 0, 0, 0, 0⟩] true).writes = 0 ∧
    (run_main "anime" "current" true none 0
      [⟨2, "T", 12, 5, 0, 0, 0, 0⟩] true).rate_file = none :=
  at_most_five_lines_and_empty_run_exits_zero.2 "anime" "current" none 0
    [⟨2, "T", 12, 5, 0, 0, 0, 0⟩] true (by decide)

/-- C8 is false as stated: with a valid status filter "current" but an invalid
content type "book" and one in-progress entry, the run aborts with exit
status 1, not 0. -/
theorem invalid_content_type_exits_one :
    (run_main "book" "current" true none 0 [⟨1, "T", 0, 5, 0, 0, 0, 0⟩] true).outcome =
      RunOutcome.badContentType ∧
    exit_code (run_main "book" "current" true none 0
      [⟨1, "T", 0, 5, 0, 0, 0, 0⟩] true).outcome = 1 :=
  ⟨by decide, by decide⟩

/-- C8 amended: an invalid status-filter value makes the publisher log and
return, so the run ends without publishing, without writing the timestamp, and
with exit status 0; an invalid content-type value instead aborts the run with
exit status 1 as soon as an in-progress entry is classified. -/
theorem config_error_exit_codes :
    (∀ (ct cs : String) (pok : Bool) (rf : Option (Option ℚ)) (now : ℚ) (m : String),
      cs ≠ "current" → cs ≠ "completed" → cs ≠ "on-hold" → cs ≠ "dropped" →
      update_gist ct cs pok rf now m = ⟨.badStatusConfig, rf, 0⟩ ∧
      exit_code RunOutcome.badStatusConfig = 0) ∧
    (∀ (ct cs : String) (rf : Option (Option ℚ)) (now : ℚ) (entries : List MALEntry)
        (pok : Bool),
      (ct = "anime" ∨ ct = "manga") →
      cs ≠ "current" → cs ≠ "completed" → cs ≠ "on-hold" → cs ≠ "dropped" →
      exit_code (run_main ct cs true rf now entries pok).outcome = 0 ∧
      (∀ m, (run_main ct cs true rf now entries pok).outcome ≠ .published m) ∧
      (run_main ct cs true rf now entries pok).writes = 0 ∧
      (run_main ct cs true rf now entries pok).rate_file = rf) ∧
    (∀ (ct cs : String) (rf : Option (Option ℚ)) (now : ℚ) (entries : List MALEntry)
        (pok : Bool),
      ct ≠ "anime" → ct ≠ "manga" → check_rate_limit rf now = true →
      (∃ e ∈ entries, e.status = 1) →
      (run_main ct cs true rf now entries pok).outcome = .badContentType ∧
      exit_code (run_main ct cs true rf now entries pok).outcome = 1) := by
  have hnorm : ∀ ct cs : String, cs ≠ "current" → cs ≠ "completed" → cs ≠ "on-hold" →
      cs ≠ "dropped" → content_status_normalized ct cs = none := by
    intro ct cs h1 h2 h3 h4
    unfold content_status_normalized
    rw [if_neg h1, if_neg (by simp [h2, h3, h4])]
  refine ⟨?_, ?_, ?_⟩
  · intro ct cs pok rf now m h1 h2 h3 h4
    refine ⟨?_, rfl⟩
    unfold update_gist
    rw [hnorm ct cs h1 h2 h3 h4]
  · intro ct cs rf now entries pok hct h1 h2 h3 h4
    by_cases hrl : check_rate_limit rf now = false
    · have hres : run_main ct cs true rf now entries pok = ⟨.rateLimited, rf, 0⟩ := by
        simp [run_main, hrl]
      rw [hres]
      exact ⟨rfl, fun m => by simp, rfl, rfl⟩
    · have hrl' : check_rate_limit rf now = true := by
        cases hcl : check_rate_limit rf now
        · exact absurd hcl hrl
        · rfl
      obtain ⟨p, hp⟩ :=
        Option.isSome_iff_exists.mp (classify_entries_valid_isSome ct hct entries)
      by_cases hemp : (displayable_data p.1 p.2).isEmpty
      · have hres : run_main ct cs true rf now entries pok = ⟨.noItems, rf, 0⟩ := by
          simp [run_main, hrl', hp, hemp]
        rw [hres]
        exact ⟨rfl, fun m => by simp, rfl, rfl⟩
      · have hres : run_main ct cs true rf now entries pok = ⟨.badStatusConfig, rf, 0⟩ := by
          simp only [run_main, hrl', hp]
          rw [if_neg (by simp), if_neg (by simp [Bool.true_eq_false]), if_neg hemp]
          unfold update_gist
          rw [hnorm ct cs h1 h2 h3 h4]
        rw [hres]
        exact ⟨rfl, fun m => by simp, rfl, rfl⟩
  · intro ct cs rf now entries pok hct1 hct2 hrl hex
    have hcl := classify_entries_invalid_none ct hct1 hct2 entries hex
    have hres : run_main ct cs true rf now entries pok = ⟨.badContentType, rf, 0⟩ := by
      simp [run_main, hrl, hcl]
    rw [hres]
    exact ⟨rfl, rfl⟩

/-- Witness for amended C8: status filter "bogus" with content type "anime"
ends the run with exit 0, no publish, no timestamp write. -/
theorem config_error_exit_codes_witness :
    exit_code (run_main "anime" "bogus" true none 0
      [⟨1, "T", 0, 3, 0, 0, 0, 0⟩] true).outcome = 0 ∧
    (∀ m, (run_main "anime" "bogus" true none 0
      [⟨1, "T", 0, 3, 0, 0, 0, 0⟩] true).outcome ≠ .published m) ∧
    (run_main "anime" "bogus" true none 0 [⟨1, "T", 0, 3, 0, 0, 0, 0⟩] true).writes = 0 ∧
    (run_main "anime" "bogus" true none 0
      [⟨1, "T", 0, 3, 0, 0, 0, 0⟩] true).rate_file = none :=
  config_error_exit_codes.2.1 "anime" "bogus" none 0 [⟨1, "T", 0, 3, 0, 0, 0, 0⟩] true
    (Or.inl rfl) (by decide) (by decide) (by decide) (by decide)

/-- C9: the rate-limit timestamp is written exactly once and only when the
publish succeeds; a failed publish exits with status 1 and leaves the timestamp
unchanged, and every non-publishing outcome leaves the rate-limit file
unchanged with zero writes. -/
theorem timestamp_written_once_on_success (ct cs : String) (auth : Bool)
    (rf : Option (Option ℚ)) (now : ℚ) (entries : List MALEntry) (pok : Bool) :
    ((∃ m, (run_main ct cs auth rf now entries pok).outcome = .published m) →
      pok = true ∧ (run_main ct cs auth rf now entries pok).writes = 1 ∧
      (run_main ct cs auth rf now entries pok).rate_file = some (some now)) ∧
    ((∀ m, (run_main ct cs auth rf now entries pok).outcome ≠ .published m) →
      (run_main ct cs auth rf now entries pok).writes = 0 ∧
      (run_main ct cs auth rf now entries pok).rate_file = rf) ∧
    ((run_main ct cs auth rf now entries pok).outcome = .publishFailed →
      pok = false ∧
      exit_code (run_main ct cs auth rf now entries pok).outcome = 1) := by
  unfold run_main
  split_ifs with h1 h2
  · refine ⟨fun h => ?_, fun _ => ⟨by trivial, by trivial⟩, fun h => ?_⟩
    · obtain ⟨m, hm⟩ := h
      simp at hm
    · simp at h
  · refine ⟨fun h => ?_, fun _ => ⟨by trivial, by trivial⟩, fun h => ?_⟩
    · obtain ⟨m, hm⟩ := h
      simp at hm
    · simp at h
  · rcases hcl : classify_entries ct entries with _ | pd_ud
    · simp only [hcl]
      refine ⟨fun h => ?_, fun _ => ⟨by trivial, by trivial⟩, fun h => ?_⟩
      · obtain ⟨m, hm⟩ := h
        simp at hm
      · simp at h
    · simp only [hcl]
      by_cases hemp : (displayable_data pd_ud.1 pd_ud.2).isEmpty
      · rw [if_pos hemp]
        refine ⟨fun h => ?_, fun _ => ⟨by trivial, by trivial⟩, fun h => ?_⟩
        · obtain ⟨m, hm⟩ := h
          simp at hm
        · simp at h
      · rw [if_neg hemp]
        unfold update_gist
        rcases hph : content_status_normalized ct cs with _ | s
        · simp only [hph]
          refine ⟨fun h => ?_, fun _ => ⟨by trivial, by trivial⟩, fun h => ?_⟩
          · obtain ⟨m, hm⟩ := h
            simp at hm
          · simp at h
        · simp only [hph]
          cases pok
          · simp only [Bool.false_eq_true, if_false]
            refine ⟨fun h => ?_, fun _ => ⟨by trivial, by trivial⟩, fun _ => ⟨by trivial, by trivial⟩⟩
            obtain ⟨m, hm⟩ := h
            simp at hm
          · simp only [if_true]
            refine ⟨fun _ => ⟨by trivial, by trivial, by trivial⟩, fun hall => absurd (by trivial) (hall _), fun h => ?_⟩
            simp at h

/-- Witness for C9: a successful publish writes the timestamp once and stores
the current time; a failed publish leaves the absent file absent. -/
theorem timestamp_written_once_on_success_witness :
    ((run_main "anime" "current" true none 0
        [⟨1, "T", 0, 3, 0, 0, 0, 0⟩] true).writes = 1 ∧
      (run_main "anime" "current" true none 0
        [⟨1, "T", 0, 3, 0, 0, 0, 0⟩] true).rate_file = some (some (0 : ℚ))) ∧
    ((run_main "anime" "current" true none 0
        [⟨1, "T", 0, 3, 0, 0, 0, 0⟩] false).writes = 0 ∧
      (run_main "anime" "current" true none 0
        [⟨1, "T", 0, 3, 0, 0, 0, 0⟩] false).rate_file = none) := by
  constructor
  · exact ((timestamp_written_once_on_success "anime" "current" true none 0
      [⟨1, "T", 0, 3, 0, 0, 0, 0⟩] true).1 ⟨"🍳 Ep. 3: T", by decide⟩).2
  · refine (timestamp_written_once_on_success "anime" "current" true none 0
      [⟨1, "T", 0, 3, 0, 0, 0, 0⟩] false).2.1 ?_
    intro m hm
    have houtcome : (run_main "anime" "current" true none 0
        [⟨1, "T", 0, 3, 0, 0, 0, 0⟩] false).outcome = RunOutcome.publishFailed := by decide
    rw [houtcome] at hm
    exact RunOutcome.noConfusion hm
